import Mathlib

/-!
Verification of the PyOrion runtime against its specification.

This file gives a shallow embedding, in Lean, of the parts of the PyOrion
repository that the claims concern:

* the transport relay loop `handle_frontend_connections` and the command
  listing `list_commands` from `src/pyorion/runtime/connections.py`;
* the lifecycle helpers `launch_background_task`, `cancel_all_tasks` and
  `terminate_process_safely` from `src/pyorion/runtime/runtime.py`;
* the address splitting helper `split_address` from `src/pyorion/utils.py`;
* the CLI entry point from `src/pyorion/__main__.py`.

Python values that flow through the relay are modelled by an explicit JSON
datatype; asynchronous behaviour is modelled by explicit state passing and by
recording, for each handled message, the observable effects (log events, send
attempts, set mutations).  Fallible Python code is modelled with `Except`.
-/

namespace PyOrion

/-! ## JSON values

A model of the values produced by `json.loads`.  An `obj` carries the items of
a Python `dict`; `json.loads` produces dictionaries with pairwise distinct
keys, and key access is by the first (equivalently, only) matching entry. -/

inductive Json where
  | null
  | bool (b : Bool)
  | num (n : Int)
  | str (s : String)
  | arr (xs : List Json)
  | obj (fields : List (String × Json))

/-! ## The transport relay (`src/pyorion/runtime/connections.py`) -/

/-- A registered handler; in the source a handler is a Python callable, of
which `list_commands` observes only the function name (`f.__name__`). -/
structure Handler where
  fname : String
deriving DecidableEq

/-- The command registry `_event_callbacks`: a mapping from event name to the
list of registered handler callables. -/
def Registry := List (String × List Handler)

/-- `list_commands` (connections.py, lines 20 to 22): the mapping of registered
event names to the lists of handler function names. -/
def list_commands (registry : Registry) : List (String × List String) :=
  registry.map (fun kv => (kv.1, kv.2.map Handler.fname))

/-- A frontend WebSocket client (`ServerConnection`).  `sendOk` records
whether a `client.send` on this connection succeeds or raises. -/
structure Client where
  id : Nat
  sendOk : Bool
deriving DecidableEq

/-- Log events emitted by the relay loop, one constructor per logging call in
`handle_frontend_connections`. -/
inductive LogEvent where
  /-- `logging.warning("Ignoring non-dict payload ...")` -/
  | warnNonDict
  /-- `logging.warning("Incomplete message keys ...")` -/
  | warnIncompleteKeys
  /-- `logging.error("Malformed JSON from ...")` (the `json.JSONDecodeError` branch) -/
  | errMalformedJson
  /-- `logging.error("No handler registered for event ... Available ...")`,
  carrying the command value and the `list_commands()` listing -/
  | errNoHandler (cmd : Json) (known : List (String × List String))
  /-- `logging.exception("Unexpected error handling message ...")` (the
  catch-all `except Exception` branch) -/
  | errUnexpected

/-- One inbound WebSocket message, as seen after `json.loads`: either the
parse raised `json.JSONDecodeError`, or it produced a value. -/
inductive Inbound where
  | malformed (raw : String)
  | parsed (j : Json)

/-- The four required envelope keys, in the order they are checked. -/
def envelopeKeys : List String := ["cmd", "result_id", "error_id", "payload"]

/-- `k in payload` for a parsed JSON object. -/
def hasKey (fields : List (String × Json)) (k : String) : Bool :=
  fields.any (fun kv => kv.1 == k)

/-- `payload[k]` for a parsed JSON object (total, defaulting to `null`; the
relay only reads keys whose presence it has checked). -/
def getKeyD (fields : List (String × Json)) (k : String) : Json :=
  ((fields.find? (fun kv => kv.1 == k)).map Prod.snd).getD Json.null

/-- `cmd not in _event_callbacks`, negated: a value is a registered command
exactly when it is a string equal to some registry key (dictionary keys are
strings, so non-string values are never registered). -/
def cmdRegistered (registry : Registry) : Json → Bool
  | .str s => registry.any (fun kv => kv.1 == s)
  | _ => false

/-- The relay environment.  `registry` embeds `_event_callbacks`.

`dispatch` is modelled from the spec: it stands for `make_callback` followed
by serialization (connections.py, lines 51 to 62) — the dispatcher of the
`pyinvoke` module, which is part of the repository but not under `src/`.  Per
the spec (section 4.1) it decodes the payload, invokes the handler and always
returns a response envelope, never propagating handler exceptions; the model
therefore takes it as a total function from the command, `result_id`,
`error_id` and `payload` values to the serialized response message. -/
structure RelayEnv where
  registry : Registry
  dispatch : Json → Json → Json → Json → String

/-- The observable outcome of handling one inbound message (one iteration of
the `async for` body in `handle_frontend_connections`). -/
structure StepOut where
  /-- `core.connected_clients` after the iteration. -/
  connected : List Client
  /-- log events emitted during the iteration. -/
  logs : List LogEvent
  /-- the serialized response broadcast, when a dispatch happened. -/
  response : Option String
  /-- the send attempts of the broadcast, in set iteration order, each paired
  with whether that send succeeded.  `asyncio.gather` starts every send
  concurrently, and a failing sibling does not cancel the others, so every
  listed send runs to its own outcome even when one of them raises. -/
  sends : List (Client × Bool)
  /-- the command value passed to `make_callback`, when a handler was invoked. -/
  handlerInvoked : Option Json
  /-- whether the `async for` loop continues to the next message. -/
  connectionOpen : Bool

/-- One iteration of the message loop of `handle_frontend_connections`
(connections.py, lines 29 to 78), given the current connected-client set. -/
def handle_message (env : RelayEnv) (connected : List Client) : Inbound → StepOut
  | .malformed _ =>
      { connected := connected, logs := [.errMalformedJson], response := none,
        sends := [], handlerInvoked := none, connectionOpen := true }
  | .parsed (.obj fields) =>
      if envelopeKeys.all (fun k => hasKey fields k) then
        let cmd := getKeyD fields "cmd"
        if cmdRegistered env.registry cmd then
          let responseMsg := env.dispatch cmd (getKeyD fields "result_id")
            (getKeyD fields "error_id") (getKeyD fields "payload")
          { connected := connected,
            logs := if connected.all (fun c => c.sendOk) then [] else [.errUnexpected],
            response := some responseMsg,
            sends := connected.map (fun c => (c, c.sendOk)),
            handlerInvoked := some cmd,
            connectionOpen := true }
        else
          { connected := connected,
            logs := [.errNoHandler cmd (list_commands env.registry)],
            response := none, sends := [], handlerInvoked := none,
            connectionOpen := true }
      else
        { connected := connected, logs := [.warnIncompleteKeys], response := none,
          sends := [], handlerInvoked := none, connectionOpen := true }
  | .parsed _ =>
      { connected := connected, logs := [.warnNonDict], response := none,
        sends := [], handlerInvoked := none, connectionOpen := true }

/-- The `async for message in websocket` loop: handle the inbound messages in
arrival order, threading the connected-client set, for as long as the
connection stays open.  Returns the per-message outcomes and the final set. -/
def run_messages (env : RelayEnv) (connected : List Client) :
    List Inbound → List StepOut × List Client
  | [] => ([], connected)
  | m :: ms =>
      let out := handle_message env connected m
      if out.connectionOpen then
        let rest := run_messages env out.connected ms
        (out :: rest.1, rest.2)
      else ([out], out.connected)

/-- `core.connected_clients.add websocket` (Python set add). -/
def addClient (c : Client) (s : List Client) : List Client :=
  if c ∈ s then s else c :: s

/-- `core.connected_clients.discard websocket` (Python set discard). -/
def discardClient (c : Client) (s : List Client) : List Client :=
  s.filter (fun x => decide (x ≠ c))

/-- `handle_frontend_connections` (connections.py, lines 25 to 82) for one
connection `self` delivering the messages `msgs`: add `self` to the
connected-client set, run the message loop, and in the `finally` block discard
`self` from the set once the connection ends. -/
def handle_frontend_connections (env : RelayEnv) (self : Client)
    (connected : List Client) (msgs : List Inbound) : List StepOut × List Client :=
  let c0 := addClient self connected
  let r := run_messages env c0 msgs
  (r.1, discardClient self r.2)

/-! ## Runtime lifecycle (`src/pyorion/runtime/runtime.py`) -/

/-- The behaviour of the spawned native process relevant to
`terminate_process_safely`: whether it exits within the 3.0 second
`proc.join(3.0)` grace window, and, if not, whether `proc.terminate()` makes
it exit within the following 2.0 second `proc.join(2.0)` window.  `proc.kill`
(SIGKILL) cannot be caught or ignored, so a killed process always exits; the
model builds that operating-system guarantee in. -/
structure ProcBehavior where
  exitsWithinGrace : Bool
  exitsAfterTerminate : Bool
deriving DecidableEq

/-- The process-control calls issued by `terminate_process_safely`, in order;
a `join` carries its timeout in seconds when it has one. -/
inductive ProcAction where
  | join (timeout : Option Nat)
  | terminate
  | kill
deriving DecidableEq

/-- `terminate_process_safely` (runtime.py, lines 72 to 84): `proc.join(3.0)`;
if still alive, `proc.terminate()` then `proc.join(2.0)`; if still alive,
`proc.kill()` then an untimed `proc.join()`.  Returns the trace of issued
calls together with whether the process is still alive afterwards. -/
def terminate_process_safely (p : ProcBehavior) : List ProcAction × Bool :=
  let alive1 := !p.exitsWithinGrace
  let step2 : List ProcAction × Bool :=
    if alive1 then ([ProcAction.terminate, ProcAction.join (some 2)], !p.exitsAfterTerminate)
    else ([], alive1)
  let step3 : List ProcAction × Bool :=
    if step2.2 then ([ProcAction.kill, ProcAction.join none], false)
    else ([], step2.2)
  (ProcAction.join (some 3) :: (step2.1 ++ step3.1), step3.2)

/-- The outcome a cancelled task produces when awaited during the shutdown
drain: it raises `asyncio.CancelledError`, raises some other exception, or
returns a value. -/
inductive TaskOutcome where
  | cancelled
  | failed (msg : String)
  | value
deriving DecidableEq

/-- An asyncio task, identified by `id`, with the outcome it produces when
awaited after cancellation. -/
structure ATask where
  id : Nat
  outcome : TaskOutcome
deriving DecidableEq

/-- The state `cancel_all_tasks` observes: `core.background_tasks`,
`asyncio.all_tasks(loop)`, and `asyncio.current_task(loop)`. -/
structure LoopState where
  background_tasks : List ATask
  all_tasks : List ATask
  current : ATask

/-- `asyncio.gather(*aws, return_exceptions := b)` over already-settled
outcomes: with `return_exceptions` true it returns every outcome as a value;
with it false the first exceptional outcome propagates to the awaiter. -/
def gather (return_exceptions : Bool) (outcomes : List TaskOutcome) :
    Except TaskOutcome (List TaskOutcome) :=
  if return_exceptions then .ok outcomes
  else
    match outcomes.find? (fun r => r != TaskOutcome.value) with
    | some e => .error e
    | none => .ok outcomes

/-- The observable effects of `cancel_all_tasks`. -/
structure CancelOut where
  /-- task ids `task.cancel()` was called on, in call order (a task in both
  `background_tasks` and the pending list is cancelled twice, harmlessly). -/
  cancelled : List Nat
  /-- task ids awaited by the `asyncio.gather` drain. -/
  awaited : List Nat
  /-- the shutdown-anomaly messages printed for non-cancellation exceptions. -/
  logged : List String

/-- `cancel_all_tasks` (runtime.py, lines 53 to 69): cancel every member of
`core.background_tasks`; cancel every task of the loop other than the current
one; await them all with `asyncio.gather(..., return_exceptions := True)`; for
each result that is an exception other than `asyncio.CancelledError`, print a
shutdown anomaly.  An exception escaping would be an `Except.error`. -/
def cancel_all_tasks (st : LoopState) : Except TaskOutcome CancelOut :=
  let cancelledBg := st.background_tasks.map ATask.id
  let pending := st.all_tasks.filter (fun t => decide (t ≠ st.current))
  let cancelledPending := pending.map ATask.id
  match gather true (pending.map ATask.outcome) with
  | .error e => .error e
  | .ok results =>
      .ok { cancelled := cancelledBg ++ cancelledPending,
            awaited := cancelledPending,
            logged := results.filterMap (fun r =>
              match r with
              | .failed m => some ("Task raised during shutdown: " ++ m)
              | _ => none) }

/-- `launch_background_task` (runtime.py, lines 39 to 50), acting on
`core.background_tasks` as a set of task ids: create the task, add it to the
set, register `core.background_tasks.discard` as its done callback, and return
the task.  The registered callback is modelled by `on_task_done` below. -/
def launch_background_task (background_tasks : List Nat) (tid : Nat) :
    List Nat × Nat :=
  (if tid ∈ background_tasks then background_tasks else tid :: background_tasks, tid)

/-- The done callback registered by `launch_background_task` (runtime.py, line
49): when the task completes, the event loop runs
`core.background_tasks.discard task`. -/
def on_task_done (background_tasks : List Nat) (tid : Nat) : List Nat :=
  background_tasks.filter (fun t => decide (t ≠ tid))

/-! ## Address splitting (`src/pyorion/utils.py`, lines 49 to 69)

Character-level model of the Python string operations `split_address` uses:
the containment test `":" in address`, `address.rsplit(":", 1)`, emptiness
tests, `int(port_str)` and the range check. -/

/-- A Python exception as `split_address` can raise it: by its code every
failure is a `ValueError`; the payload is the message. -/
inductive PyErr where
  | valueError (msg : String)
deriving DecidableEq

/-- The ASCII whitespace characters `int` strips from a string argument. -/
def isPySpace (c : Char) : Bool :=
  c == ' ' || c == '\t' || c == '\n' || c == '\r' || c == '\x0b' || c == '\x0c'

/-- An ASCII decimal digit.  (Python `int` additionally accepts non-ASCII
unicode digits; the model restricts strings to ASCII digits.) -/
def isPyDigit (c : Char) : Bool :=
  '0' ≤ c && c ≤ '9'

/-- Continue parsing a Python integer literal after its first digit:
digits, optionally separated by single underscores. -/
def parseDigitRest (acc : Nat) : List Char → Option Nat
  | [] => some acc
  | '_' :: c :: rest =>
      if isPyDigit c then parseDigitRest (acc * 10 + (c.toNat - '0'.toNat)) rest
      else none
  | '_' :: [] => none
  | c :: rest =>
      if isPyDigit c then parseDigitRest (acc * 10 + (c.toNat - '0'.toNat)) rest
      else none

/-- Parse the digit part of a Python integer literal: at least one digit,
with single underscores permitted between digits. -/
def parseDigitPart : List Char → Option Nat
  | [] => none
  | c :: rest =>
      if isPyDigit c then parseDigitRest (c.toNat - '0'.toNat) rest
      else none

/-- Strip leading and trailing whitespace, as `int` does to a string. -/
def pyStrip (cs : List Char) : List Char :=
  ((cs.dropWhile isPySpace).reverse.dropWhile isPySpace).reverse

/-- `int(s)` on a string: strip whitespace, then an optional sign followed by
a digit part; `none` models the `ValueError` a non-integer string raises. -/
def pyInt (cs : List Char) : Option Int :=
  match pyStrip cs with
  | '+' :: rest => (parseDigitPart rest).map Int.ofNat
  | '-' :: rest => (parseDigitPart rest).map (fun n => -(n : Int))
  | rest => (parseDigitPart rest).map Int.ofNat

/-- `address.rsplit(":", 1)` when a colon is present: the characters before
the last colon, and the characters after it. -/
def rsplitColon (cs : List Char) : List Char × List Char :=
  ((cs.reverse.drop
      ((cs.reverse.takeWhile (fun c => decide (c ≠ ':'))).length + 1)).reverse,
   (cs.reverse.takeWhile (fun c => decide (c ≠ ':'))).reverse)

/-- `split_address` (utils.py, lines 49 to 69): reject an address without a
colon; split at the last colon; reject an empty host or port part; parse the
port with `int` and check the range 0 to 65535.  The range failure raises
inside the `try`, so the `except ValueError` branch re-raises it with the
invalid-port message, exactly as the non-integer case. -/
def split_address (address : String) : Except PyErr (String × Int) :=
  if !address.data.contains ':' then
    .error (.valueError "Invalid address format. Expected host:port.")
  else if (rsplitColon address.data).1.isEmpty then
    .error (.valueError "Host part must not be empty.")
  else if (rsplitColon address.data).2.isEmpty then
    .error (.valueError "Port part must not be empty.")
  else
    match pyInt (rsplitColon address.data).2 with
    | none => .error (.valueError "Invalid port. Must be an integer.")
    | some port =>
        if 0 ≤ port ∧ port ≤ 65535 then
          .ok (String.mk (rsplitColon address.data).1, port)
        else .error (.valueError "Invalid port. Must be an integer.")

/-! ## The CLI entry point (`src/pyorion/__main__.py`) -/

/-- The names defined at module top level in `src/pyorion/utils.py`
(lines 1 to 97), in definition order. -/
def utils_module_names : List String :=
  ["find_folder", "load_html", "_fallback_html",
   "find_free_ports_and_create_addrs", "split_address", "make_json_safe",
   "normalize_args"]

/-- A failure aborting the CLI process with a traceback and a nonzero exit
status. -/
inductive CliError where
  | importError (msg : String)
deriving DecidableEq

/-- The module-level statement `from pyorion.utils import remove_pycash` in
`src/pyorion/__main__.py` (line 4): it succeeds exactly when
`pyorion.utils` defines a top-level name `remove_pycash`, and raises
`ImportError` otherwise. -/
def import_remove_pycash : Except CliError Unit :=
  if utils_module_names.contains "remove_pycash" then .ok ()
  else .error (.importError "cannot import name remove_pycash from pyorion.utils")

/-- Running `python -m pyorion` with the given arguments: the module-level
importing runs before the `click` group dispatches any subcommand, so a
failing importation aborts with a traceback before any subcommand body; if it
succeeds, the `remove_pycash` subcommand runs its body and `click` exits with
status 0. -/
def run_cli (_args : List String) : Except CliError Nat :=
  match import_remove_pycash with
  | .error e => .error e
  | .ok _ => .ok 0

/-! ## Theorems -/

/-- C2: the shutdown termination sequence always proceeds in three tiers:
first a bounded 3 second wait for natural exit; a terminate request plus a
bounded 2 second wait only if the process is still alive; a force-kill plus a
join only if it is still alive after that.  A process that exits within the
grace window is never terminated or killed, a kill is never issued without a
preceding terminate, and the sequence always ends with the process no longer
alive (the only unbounded join follows a kill, which guarantees exit). -/
theorem terminate_escalation (p : ProcBehavior) :
    (p.exitsWithinGrace = true →
      (terminate_process_safely p).1 = [ProcAction.join (some 3)]) ∧
    (p.exitsWithinGrace = false → p.exitsAfterTerminate = true →
      (terminate_process_safely p).1 =
        [ProcAction.join (some 3), ProcAction.terminate, ProcAction.join (some 2)]) ∧
    (p.exitsWithinGrace = false → p.exitsAfterTerminate = false →
      (terminate_process_safely p).1 =
        [ProcAction.join (some 3), ProcAction.terminate, ProcAction.join (some 2),
         ProcAction.kill, ProcAction.join none]) ∧
    (ProcAction.kill ∈ (terminate_process_safely p).1 →
      ProcAction.terminate ∈ (terminate_process_safely p).1) ∧
    (p.exitsWithinGrace = true →
      ProcAction.terminate ∉ (terminate_process_safely p).1 ∧
      ProcAction.kill ∉ (terminate_process_safely p).1) ∧
    (terminate_process_safely p).2 = false := by
  obtain ⟨a, b⟩ := p
  cases a <;> cases b <;> decide

/-- Witness for C2: concrete traces of the escalation for a process that
ignores everything and for one that exits naturally. -/
theorem terminate_escalation_witness :
    (terminate_process_safely ⟨false, false⟩).1 =
      [ProcAction.join (some 3), ProcAction.terminate, ProcAction.join (some 2),
       ProcAction.kill, ProcAction.join none] ∧
    (terminate_process_safely ⟨true, true⟩).1 = [ProcAction.join (some 3)] :=
  ⟨(terminate_escalation ⟨false, false⟩).2.2.1 rfl rfl,
   (terminate_escalation ⟨true, true⟩).1 rfl⟩

/-- Helper: the drain logs exactly one message per non-cancellation
exception among the awaited outcomes. -/
theorem logged_length_eq (outs : List TaskOutcome) :
    (outs.filterMap (fun r =>
        match r with
        | .failed m => some ("Task raised during shutdown: " ++ m)
        | _ => none)).length =
      (outs.filter (fun r =>
        match r with
        | .failed _ => true
        | _ => false)).length := by
  induction outs with
  | nil => rfl
  | cons r rest ih =>
      cases r <;> simp [List.filterMap_cons, List.filter_cons, ih]

/-- C7: `cancel_all_tasks` cancels every member of the background task set
and every other task on the loop except the current one, awaits all of them,
and returns normally: cancellation outcomes produce no log entry, every
non-cancellation exception produces exactly one log entry, and no failure
escapes the drain. -/
theorem cancel_all_tasks_drain (st : LoopState)
    (hbg : ∀ t ∈ st.background_tasks, t ∈ st.all_tasks) :
    ∃ out, cancel_all_tasks st = .ok out ∧
      (∀ t ∈ st.background_tasks, t.id ∈ out.cancelled) ∧
      (∀ t ∈ st.all_tasks, t ≠ st.current → t.id ∈ out.cancelled) ∧
      (∀ t ∈ st.all_tasks, t ≠ st.current → t.id ∈ out.awaited) ∧
      (∀ t ∈ st.background_tasks, t ≠ st.current → t.id ∈ out.awaited) ∧
      out.logged.length =
        ((st.all_tasks.filter (fun t => decide (t ≠ st.current))).filter (fun t =>
          match t.outcome with
          | .failed _ => true
          | _ => false)).length := by
  refine ⟨_, rfl, ?_, ?_, ?_, ?_, ?_⟩
  · intro t ht
    exact List.mem_append_left _ (List.mem_map_of_mem _ ht)
  · intro t ht hne
    exact List.mem_append_right _
      (List.mem_map_of_mem _ (List.mem_filter.mpr ⟨ht, by simpa using hne⟩))
  · intro t ht hne
    exact List.mem_map_of_mem _ (List.mem_filter.mpr ⟨ht, by simpa using hne⟩)
  · intro t ht hne
    exact List.mem_map_of_mem _ (List.mem_filter.mpr ⟨hbg t ht, by simpa using hne⟩)
  · simp only [cancel_all_tasks, gather, if_pos rfl]
    rw [logged_length_eq]
    rw [List.filter_map]
    simp [Function.comp]

/-- Witness for C7: a concrete drain with one cancelled background task, one
task failing with an exception, and the current task. -/
theorem cancel_all_tasks_drain_witness :
    ∃ out,
      cancel_all_tasks
        { background_tasks := [⟨1, TaskOutcome.cancelled⟩],
          all_tasks := [⟨1, TaskOutcome.cancelled⟩, ⟨2, TaskOutcome.failed "boom"⟩,
            ⟨0, TaskOutcome.value⟩],
          current := ⟨0, TaskOutcome.value⟩ } = .ok out ∧
      1 ∈ out.cancelled ∧ 2 ∈ out.cancelled ∧ 2 ∈ out.awaited ∧
      out.logged.length = 1 := by
  obtain ⟨out, hok, h1, h2, h3, _, h5⟩ :=
    cancel_all_tasks_drain
      { background_tasks := [⟨1, TaskOutcome.cancelled⟩],
        all_tasks := [⟨1, TaskOutcome.cancelled⟩, ⟨2, TaskOutcome.failed "boom"⟩,
          ⟨0, TaskOutcome.value⟩],
        current := ⟨0, TaskOutcome.value⟩ }
      (by intro t ht; simp at ht; simp [ht])
  refine ⟨out, hok, ?_, ?_, ?_, ?_⟩
  · exact h1 ⟨1, TaskOutcome.cancelled⟩ (by simp)
  · exact h2 ⟨2, TaskOutcome.failed "boom"⟩ (by simp) (by decide)
  · exact h3 ⟨2, TaskOutcome.failed "boom"⟩ (by simp) (by decide)
  · rw [h5]; decide

/-- C8: a task launched through `launch_background_task` is in the background
task set on creation and the function returns the created task; once the done
callback registered at launch runs for that task, the task is no longer a
member of the set. -/
theorem launch_background_task_tracking (bg : List Nat) (tid : Nat) :
    (launch_background_task bg tid).2 = tid ∧
    tid ∈ (launch_background_task bg tid).1 ∧
    (∀ s : List Nat, tid ∉ on_task_done s tid) ∧
    tid ∉ on_task_done (launch_background_task bg tid).1 tid := by
  refine ⟨rfl, ?_, ?_, ?_⟩
  · by_cases h : tid ∈ bg <;> simp [launch_background_task, h]
  · intro s
    simp [on_task_done]
  · simp [on_task_done]

/-- Witness for C8: launching task 5 into an empty set tracks it, and its
completion callback removes it. -/
theorem launch_background_task_tracking_witness :
    (launch_background_task [] 5).2 = 5 ∧
    5 ∈ (launch_background_task [] 5).1 ∧
    5 ∉ on_task_done (launch_background_task [] 5).1 5 := by
  obtain ⟨h1, h2, _, h4⟩ := launch_background_task_tracking [] 5
  exact ⟨h1, h2, h4⟩

/-- C9: the CLI module imports `remove_pycash` from `pyorion.utils` at module
level, but `pyorion.utils` defines no such name, so every CLI invocation —
including the `remove_pycash` subcommand itself — fails with an `ImportError`
before any subcommand runs and never exits with status 0. -/
theorem remove_pycash_import_bug :
    "remove_pycash" ∉ utils_module_names ∧
    run_cli ["remove_pycash"] =
      .error (.importError "cannot import name remove_pycash from pyorion.utils") ∧
    (∀ args n, run_cli args ≠ .ok n) := by
  refine ⟨by decide, rfl, ?_⟩
  intro args n h
  simp [run_cli, import_remove_pycash, utils_module_names] at h

/-- C3: dispatching an envelope whose command has no registered handler logs
the failure together with the `list_commands` listing, invokes no handler,
sends no response to any client, leaves the connected-client set unchanged,
keeps the connection open, and the message loop goes on to process the
subsequent messages from the same state. -/
theorem unregistered_command_soft_fail (env : RelayEnv) (connected : List Client)
    (fields : List (String × Json)) (ms : List Inbound)
    (h4 : envelopeKeys.all (fun k => hasKey fields k) = true)
    (hreg : cmdRegistered env.registry (getKeyD fields "cmd") = false) :
    (handle_message env connected (.parsed (.obj fields))).logs =
      [LogEvent.errNoHandler (getKeyD fields "cmd") (list_commands env.registry)] ∧
    (handle_message env connected (.parsed (.obj fields))).handlerInvoked = none ∧
    (handle_message env connected (.parsed (.obj fields))).response = none ∧
    (handle_message env connected (.parsed (.obj fields))).sends = [] ∧
    (handle_message env connected (.parsed (.obj fields))).connected = connected ∧
    (handle_message env connected (.parsed (.obj fields))).connectionOpen = true ∧
    (run_messages env connected (Inbound.parsed (.obj fields) :: ms)).1 =
      handle_message env connected (.parsed (.obj fields)) ::
        (run_messages env connected ms).1 ∧
    (run_messages env connected (Inbound.parsed (.obj fields) :: ms)).2 =
      (run_messages env connected ms).2 := by
  simp [handle_message, run_messages, h4, hreg]

/-- Witness for C3: a concrete unregistered command `nope` against a registry
knowing only `ping`. -/
theorem unregistered_command_soft_fail_witness :
    (handle_message ⟨[("ping", [⟨"ping_handler"⟩])], fun _ _ _ _ => "resp"⟩
        [⟨0, true⟩]
        (.parsed (.obj [("cmd", .str "nope"), ("result_id", .str "r"),
          ("error_id", .str "e"), ("payload", .null)]))).logs =
      [LogEvent.errNoHandler (.str "nope") [("ping", ["ping_handler"])]] ∧
    (handle_message ⟨[("ping", [⟨"ping_handler"⟩])], fun _ _ _ _ => "resp"⟩
        [⟨0, true⟩]
        (.parsed (.obj [("cmd", .str "nope"), ("result_id", .str "r"),
          ("error_id", .str "e"), ("payload", .null)]))).sends = [] ∧
    (handle_message ⟨[("ping", [⟨"ping_handler"⟩])], fun _ _ _ _ => "resp"⟩
        [⟨0, true⟩]
        (.parsed (.obj [("cmd", .str "nope"), ("result_id", .str "r"),
          ("error_id", .str "e"), ("payload", .null)]))).connectionOpen = true := by
  have h := unregistered_command_soft_fail
    ⟨[("ping", [⟨"ping_handler"⟩])], fun _ _ _ _ => "resp"⟩ [⟨0, true⟩]
    [("cmd", .str "nope"), ("result_id", .str "r"),
      ("error_id", .str "e"), ("payload", .null)] [] rfl rfl
  exact ⟨h.1, h.2.2.2.1, h.2.2.2.2.2.1⟩

/-- C4 counterexample: an object carrying the four envelope keys plus an
extra fifth key `extra` is not rejected — its handler is invoked and the
response is broadcast, refuting the exactly-four-keys reading. -/
theorem extra_key_still_dispatched_cex :
    ((handle_message ⟨[("ping", [⟨"ping_handler"⟩])], fun _ _ _ _ => "resp"⟩
        [⟨0, true⟩]
        (.parsed (.obj [("cmd", .str "ping"), ("result_id", .str "r"),
          ("error_id", .str "e"), ("payload", .null),
          ("extra", .null)]))).handlerInvoked).isSome = true ∧
    (handle_message ⟨[("ping", [⟨"ping_handler"⟩])], fun _ _ _ _ => "resp"⟩
        [⟨0, true⟩]
        (.parsed (.obj [("cmd", .str "ping"), ("result_id", .str "r"),
          ("error_id", .str "e"), ("payload", .null),
          ("extra", .null)]))).response = some "resp" ∧
    (handle_message ⟨[("ping", [⟨"ping_handler"⟩])], fun _ _ _ _ => "resp"⟩
        [⟨0, true⟩]
        (.parsed (.obj [("cmd", .str "ping"), ("result_id", .str "r"),
          ("error_id", .str "e"), ("payload", .null),
          ("extra", .null)]))).sends = [(⟨0, true⟩, true)] :=
  ⟨rfl, rfl, rfl⟩

/-- C4 amended: a parsed object is dispatched only if it carries at least the
four keys `cmd`, `result_id`, `error_id`, `payload`; an object missing one of
them is rejected before dispatch without side effects; additional keys beyond
the four do not cause rejection. -/
theorem envelope_key_check (env : RelayEnv) (connected : List Client)
    (fields : List (String × Json)) :
    (envelopeKeys.all (fun k => hasKey fields k) = false →
      (handle_message env connected (.parsed (.obj fields))).handlerInvoked = none ∧
      (handle_message env connected (.parsed (.obj fields))).response = none ∧
      (handle_message env connected (.parsed (.obj fields))).sends = [] ∧
      (handle_message env connected (.parsed (.obj fields))).connected = connected ∧
      (handle_message env connected (.parsed (.obj fields))).logs =
        [LogEvent.warnIncompleteKeys]) ∧
    (envelopeKeys.all (fun k => hasKey fields k) = true →
      cmdRegistered env.registry (getKeyD fields "cmd") = true →
      (handle_message env connected (.parsed (.obj fields))).handlerInvoked =
        some (getKeyD fields "cmd")) := by
  constructor
  · intro h
    simp [handle_message, h]
  · intro h4 hreg
    simp [handle_message, h4, hreg]

/-- Witness for C4 amended: an object missing `payload` is rejected without
side effects, and the five-key object of the counterexample is dispatched. -/
theorem envelope_key_check_witness :
    (handle_message ⟨[("ping", [⟨"ping_handler"⟩])], fun _ _ _ _ => "resp"⟩
        [⟨0, true⟩]
        (.parsed (.obj [("cmd", .str "ping"), ("result_id", .str "r"),
          ("error_id", .str "e")]))).handlerInvoked = none ∧
    (handle_message ⟨[("ping", [⟨"ping_handler"⟩])], fun _ _ _ _ => "resp"⟩
        [⟨0, true⟩]
        (.parsed (.obj [("cmd", .str "ping"), ("result_id", .str "r"),
          ("error_id", .str "e")]))).sends = [] ∧
    (handle_message ⟨[("ping", [⟨"ping_handler"⟩])], fun _ _ _ _ => "resp"⟩
        [⟨0, true⟩]
        (.parsed (.obj [("cmd", .str "ping"), ("result_id", .str "r"),
          ("error_id", .str "e"), ("payload", .null),
          ("extra", .null)]))).handlerInvoked = some (.str "ping") := by
  have h1 := (envelope_key_check
    ⟨[("ping", [⟨"ping_handler"⟩])], fun _ _ _ _ => "resp"⟩ [⟨0, true⟩]
    [("cmd", .str "ping"), ("result_id", .str "r"), ("error_id", .str "e")]).1 rfl
  have h2 := (envelope_key_check
    ⟨[("ping", [⟨"ping_handler"⟩])], fun _ _ _ _ => "resp"⟩ [⟨0, true⟩]
    [("cmd", .str "ping"), ("result_id", .str "r"), ("error_id", .str "e"),
      ("payload", .null), ("extra", .null)]).2 rfl rfl
  exact ⟨h1.1, h1.2.2.1, h2⟩

/-- C5: a successfully dispatched response is broadcast to every member of
the connected-client set at the time of the broadcast: a send of the
dispatched response is attempted to each member — the originator included —
and each member whose send works receives it. -/
theorem broadcast_fanout (env : RelayEnv) (connected : List Client)
    (fields : List (String × Json)) (originator : Client)
    (h4 : envelopeKeys.all (fun k => hasKey fields k) = true)
    (hreg : cmdRegistered env.registry (getKeyD fields "cmd") = true)
    (horig : originator ∈ connected) :
    (handle_message env connected (.parsed (.obj fields))).response =
      some (env.dispatch (getKeyD fields "cmd") (getKeyD fields "result_id")
        (getKeyD fields "error_id") (getKeyD fields "payload")) ∧
    (handle_message env connected (.parsed (.obj fields))).sends =
      connected.map (fun c => (c, c.sendOk)) ∧
    (∀ c ∈ connected,
      (c, c.sendOk) ∈ (handle_message env connected (.parsed (.obj fields))).sends) ∧
    (originator, originator.sendOk) ∈
      (handle_message env connected (.parsed (.obj fields))).sends := by
  refine ⟨by simp [handle_message, h4, hreg], by simp [handle_message, h4, hreg], ?_, ?_⟩
  · intro c hc
    simp only [handle_message, h4, hreg, if_true]
    simpa using List.mem_map_of_mem (fun c => (c, c.sendOk)) hc
  · simp only [handle_message, h4, hreg, if_true]
    simpa using List.mem_map_of_mem (fun c => (c, c.sendOk)) horig

/-- Witness for C5: a registered `ping` dispatched with two connected clients
is sent to both, the originator `⟨0, true⟩` included. -/
theorem broadcast_fanout_witness :
    (handle_message ⟨[("ping", [⟨"ping_handler"⟩])], fun _ _ _ _ => "resp"⟩
        [⟨0, true⟩, ⟨1, true⟩]
        (.parsed (.obj [("cmd", .str "ping"), ("result_id", .str "r"),
          ("error_id", .str "e"), ("payload", .null)]))).sends =
      [(⟨0, true⟩, true), (⟨1, true⟩, true)] ∧
    ((⟨0, true⟩ : Client), true) ∈
      (handle_message ⟨[("ping", [⟨"ping_handler"⟩])], fun _ _ _ _ => "resp"⟩
        [⟨0, true⟩, ⟨1, true⟩]
        (.parsed (.obj [("cmd", .str "ping"), ("result_id", .str "r"),
          ("error_id", .str "e"), ("payload", .null)]))).sends := by
  have h := broadcast_fanout
    ⟨[("ping", [⟨"ping_handler"⟩])], fun _ _ _ _ => "resp"⟩
    [⟨0, true⟩, ⟨1, true⟩]
    [("cmd", .str "ping"), ("result_id", .str "r"),
      ("error_id", .str "e"), ("payload", .null)]
    ⟨0, true⟩ rfl rfl (by simp)
  exact ⟨h.2.1, h.2.2.2⟩

/-- An inbound message the relay rejects before dispatch: malformed JSON, a
non-object top level, or an object missing one of the four envelope keys. -/
def preDispatchReject : Inbound → Bool
  | .malformed _ => true
  | .parsed (.obj fields) => !(envelopeKeys.all (fun k => hasKey fields k))
  | .parsed _ => true

/-- C6: every pre-dispatch-rejected message — malformed JSON, non-object top
level, or missing envelope keys — is logged with the matching warning or
error, dropped without invoking a handler and without sending anything, the
connected-client set is untouched, the connection stays open, and the loop
processes the subsequent messages from the same state. -/
theorem malformed_message_dropped (env : RelayEnv) (connected : List Client)
    (msg : Inbound) (ms : List Inbound)
    (h : preDispatchReject msg = true) :
    ((handle_message env connected msg).logs = [LogEvent.errMalformedJson] ∨
     (handle_message env connected msg).logs = [LogEvent.warnNonDict] ∨
     (handle_message env connected msg).logs = [LogEvent.warnIncompleteKeys]) ∧
    (handle_message env connected msg).handlerInvoked = none ∧
    (handle_message env connected msg).response = none ∧
    (handle_message env connected msg).sends = [] ∧
    (handle_message env connected msg).connected = connected ∧
    (handle_message env connected msg).connectionOpen = true ∧
    (run_messages env connected (msg :: ms)).1 =
      handle_message env connected msg :: (run_messages env connected ms).1 ∧
    (run_messages env connected (msg :: ms)).2 =
      (run_messages env connected ms).2 := by
  cases msg with
  | malformed raw => simp [handle_message, run_messages]
  | parsed j =>
      cases j with
      | obj fields =>
          have hkeys : envelopeKeys.all (fun k => hasKey fields k) = false := by
            simpa [preDispatchReject] using h
          simp [handle_message, run_messages, hkeys]
      | null => simp [handle_message, run_messages]
      | bool b => simp [handle_message, run_messages]
      | num n => simp [handle_message, run_messages]
      | str s => simp [handle_message, run_messages]
      | arr xs => simp [handle_message, run_messages]

/-- Witness for C6: a malformed message is dropped with a log and the loop
continues. -/
theorem malformed_message_dropped_witness :
    (handle_message ⟨[("ping", [⟨"ping_handler"⟩])], fun _ _ _ _ => "resp"⟩
        [⟨0, true⟩] (.malformed "oops")).sends = [] ∧
    (handle_message ⟨[("ping", [⟨"ping_handler"⟩])], fun _ _ _ _ => "resp"⟩
        [⟨0, true⟩] (.malformed "oops")).handlerInvoked = none ∧
    (handle_message ⟨[("ping", [⟨"ping_handler"⟩])], fun _ _ _ _ => "resp"⟩
        [⟨0, true⟩] (.malformed "oops")).connectionOpen = true := by
  have h := malformed_message_dropped
    ⟨[("ping", [⟨"ping_handler"⟩])], fun _ _ _ _ => "resp"⟩ [⟨0, true⟩]
    (.malformed "oops") [] rfl
  exact ⟨h.2.2.2.1, h.2.1, h.2.2.2.2.2.1⟩

/-- C1 counterexample: with clients `⟨0, true⟩` and `⟨1, false⟩` connected and
the send to `⟨1, false⟩` failing during the broadcast, the other client still
receives the response and the failure is logged — but `⟨1, false⟩` is still a
member of the connected-client set after the broadcast, refuting the claimed
removal on send failure. -/
theorem send_failure_no_removal_cex :
    (handle_message ⟨[("ping", [⟨"ping_handler"⟩])], fun _ _ _ _ => "resp"⟩
        [⟨0, true⟩, ⟨1, false⟩]
        (.parsed (.obj [("cmd", .str "ping"), ("result_id", .str "r"),
          ("error_id", .str "e"), ("payload", .null)]))).connected =
      [⟨0, true⟩, ⟨1, false⟩] ∧
    (⟨1, false⟩ : Client) ∈
      (handle_message ⟨[("ping", [⟨"ping_handler"⟩])], fun _ _ _ _ => "resp"⟩
        [⟨0, true⟩, ⟨1, false⟩]
        (.parsed (.obj [("cmd", .str "ping"), ("result_id", .str "r"),
          ("error_id", .str "e"), ("payload", .null)]))).connected ∧
    ((⟨0, true⟩ : Client), true) ∈
      (handle_message ⟨[("ping", [⟨"ping_handler"⟩])], fun _ _ _ _ => "resp"⟩
        [⟨0, true⟩, ⟨1, false⟩]
        (.parsed (.obj [("cmd", .str "ping"), ("result_id", .str "r"),
          ("error_id", .str "e"), ("payload", .null)]))).sends ∧
    (handle_message ⟨[("ping", [⟨"ping_handler"⟩])], fun _ _ _ _ => "resp"⟩
        [⟨0, true⟩, ⟨1, false⟩]
        (.parsed (.obj [("cmd", .str "ping"), ("result_id", .str "r"),
          ("error_id", .str "e"), ("payload", .null)]))).logs =
      [LogEvent.errUnexpected] := by
  refine ⟨rfl, ?_, ?_, rfl⟩
  · rw [show (handle_message ⟨[("ping", [⟨"ping_handler"⟩])], fun _ _ _ _ => "resp"⟩
        [⟨0, true⟩, ⟨1, false⟩]
        (.parsed (.obj [("cmd", .str "ping"), ("result_id", .str "r"),
          ("error_id", .str "e"), ("payload", .null)]))).connected =
      [⟨0, true⟩, ⟨1, false⟩] from rfl]
    simp
  · rw [show (handle_message ⟨[("ping", [⟨"ping_handler"⟩])], fun _ _ _ _ => "resp"⟩
        [⟨0, true⟩, ⟨1, false⟩]
        (.parsed (.obj [("cmd", .str "ping"), ("result_id", .str "r"),
          ("error_id", .str "e"), ("payload", .null)]))).sends =
      [((⟨0, true⟩ : Client), true), ((⟨1, false⟩ : Client), false)] from rfl]
    simp

/-- C1 amended: when the send to one connected client fails during the
broadcast, every client whose send works still receives the response and the
failure is caught and logged, but the broadcast path leaves the
connected-client set unchanged — the failed client remains a member there; a
client is removed from the set only when its own connection handler finishes
(its `finally` block discards it). -/
theorem send_failure_isolation (env : RelayEnv) (connected : List Client)
    (fields : List (String × Json)) (bad : Client)
    (h4 : envelopeKeys.all (fun k => hasKey fields k) = true)
    (hreg : cmdRegistered env.registry (getKeyD fields "cmd") = true)
    (hbad : bad ∈ connected) (hfail : bad.sendOk = false) :
    (∀ c ∈ connected, c.sendOk = true →
      (c, true) ∈ (handle_message env connected (.parsed (.obj fields))).sends) ∧
    (handle_message env connected (.parsed (.obj fields))).logs =
      [LogEvent.errUnexpected] ∧
    (handle_message env connected (.parsed (.obj fields))).connected = connected ∧
    bad ∈ (handle_message env connected (.parsed (.obj fields))).connected ∧
    (handle_message env connected (.parsed (.obj fields))).connectionOpen = true ∧
    (∀ env2 conn2 msgs,
      bad ∉ (handle_frontend_connections env2 bad conn2 msgs).2) := by
  have hall : connected.all (fun c => c.sendOk) = false := by
    rcases Bool.eq_false_or_eq_true (connected.all (fun c => c.sendOk)) with h | h
    · exact absurd (List.all_eq_true.mp h bad hbad) (by simp [hfail])
    · exact h
  refine ⟨?_, ?_, ?_, ?_, ?_, ?_⟩
  · intro c hc hok
    simp only [handle_message, h4, hreg, if_true]
    have h1 : (c, c.sendOk) ∈ List.map (fun c => (c, c.sendOk)) connected := by
      simpa using List.mem_map_of_mem (fun c => (c, c.sendOk)) hc
    rw [hok] at h1
    simpa using h1
  · simp [handle_message, h4, hreg, hall]
  · simp [handle_message, h4, hreg]
  · simp only [handle_message, h4, hreg, if_true]
    simpa using hbad
  · simp [handle_message, h4, hreg]
  · intro env2 conn2 msgs
    simp [handle_frontend_connections, discardClient, List.mem_filter]

/-- Witness for C1 amended: concrete broadcast with a failing second client —
the first client receives, the failure is logged, the failed client stays in
the set, and its own handler removes it on termination. -/
theorem send_failure_isolation_witness :
    ((⟨0, true⟩ : Client), true) ∈
      (handle_message ⟨[("ping", [⟨"ping_handler"⟩])], fun _ _ _ _ => "resp"⟩
        [⟨0, true⟩, ⟨1, false⟩]
        (.parsed (.obj [("cmd", .str "ping"), ("result_id", .str "r"),
          ("error_id", .str "e"), ("payload", .null)]))).sends ∧
    (⟨1, false⟩ : Client) ∈
      (handle_message ⟨[("ping", [⟨"ping_handler"⟩])], fun _ _ _ _ => "resp"⟩
        [⟨0, true⟩, ⟨1, false⟩]
        (.parsed (.obj [("cmd", .str "ping"), ("result_id", .str "r"),
          ("error_id", .str "e"), ("payload", .null)]))).connected ∧
    (⟨1, false⟩ : Client) ∉
      (handle_frontend_connections
        ⟨[("ping", [⟨"ping_handler"⟩])], fun _ _ _ _ => "resp"⟩
        ⟨1, false⟩ [⟨0, true⟩] []).2 := by
  have h := send_failure_isolation
    ⟨[("ping", [⟨"ping_handler"⟩])], fun _ _ _ _ => "resp"⟩
    [⟨0, true⟩, ⟨1, false⟩]
    [("cmd", .str "ping"), ("result_id", .str "r"),
      ("error_id", .str "e"), ("payload", .null)]
    ⟨1, false⟩ rfl rfl (by simp) rfl
  exact ⟨h.1 ⟨0, true⟩ (by simp) rfl, h.2.2.2.1,
    h.2.2.2.2.2 ⟨[("ping", [⟨"ping_handler"⟩])], fun _ _ _ _ => "resp"⟩ [⟨0, true⟩] []⟩

/-- Helper: `takeWhile` consumes a block of satisfying elements up to the
first failing one. -/
theorem takeWhile_append_cons {p : Char → Bool} (l : List Char) (x : Char)
    (r : List Char) (hl : ∀ c ∈ l, p c = true) (hx : p x = false) :
    (l ++ x :: r).takeWhile p = l := by
  induction l with
  | nil => simp [List.takeWhile_cons, hx]
  | cons a as ih =>
      have ha := hl a (by simp)
      simp [List.takeWhile_cons, ha, ih (fun c hc => hl c (by simp [hc]))]

/-- Helper: `rsplitColon` splits at the last colon: on input
`pre ++ colon :: suf` with no colon in `suf` it yields `(pre, suf)`. -/
theorem rsplitColon_last (pre suf : List Char) (h : ':' ∉ suf) :
    rsplitColon (pre ++ ':' :: suf) = (pre, suf) := by
  have hrev : (pre ++ ':' :: suf).reverse = suf.reverse ++ ':' :: pre.reverse := by
    simp
  have htw : (suf.reverse ++ ':' :: pre.reverse).takeWhile
      (fun c => decide (c ≠ ':')) = suf.reverse := by
    apply takeWhile_append_cons
    · intro c hc
      have hcs : c ∈ suf := by simpa using hc
      simp [show c ≠ ':' from fun hcc => h (hcc ▸ hcs)]
    · simp
  have hdrop : (suf.reverse ++ ':' :: pre.reverse).drop
      (suf.reverse.length + 1) = pre.reverse := by
    have hassoc : suf.reverse ++ ':' :: pre.reverse =
        (suf.reverse ++ [':']) ++ pre.reverse := by simp
    have hlen : suf.reverse.length + 1 = (suf.reverse ++ [':']).length := by simp
    rw [hassoc, hlen, List.drop_left]
  unfold rsplitColon
  rw [hrev, htw, hdrop]
  simp

/-- Helper: a list containing a colon decomposes uniquely around its last
colon. -/
theorem exists_last_colon_split (l : List Char) (h : ':' ∈ l) :
    ∃ pre suf : List Char, l = pre ++ ':' :: suf ∧ ':' ∉ suf := by
  induction l with
  | nil => cases h
  | cons a as ih =>
      by_cases has : ':' ∈ as
      · obtain ⟨p, s, h1, h2⟩ := ih has
        exact ⟨a :: p, s, by rw [h1]; rfl, h2⟩
      · have ha : a = ':' := by
          rcases List.mem_cons.mp h with h1 | h1
          · exact h1.symm
          · exact absurd h1 has
        exact ⟨[], as, by rw [ha]; rfl, has⟩

/-- C10: `split_address` fails — always with a `ValueError`, the only error
its result type admits — exactly when the address has no colon, or the part
before the last colon is empty, or the part after it is empty, or that part
is not an integer, or the parsed port lies outside 0 to 65535; in every other
case it returns the pair of the substring before the last colon and the
integer value of the substring after it.  Every address with a colon
decomposes around its last colon, so the two hypothesis shapes below cover
all addresses. -/
theorem split_address_correct (addr : String) :
    (addr.data.contains ':' = false →
      split_address addr =
        .error (.valueError "Invalid address format. Expected host:port.")) ∧
    (addr.data.contains ':' = true →
      ∃ pre suf : List Char, addr.data = pre ++ ':' :: suf ∧ ':' ∉ suf) ∧
    (∀ pre suf : List Char, addr.data = pre ++ ':' :: suf → ':' ∉ suf →
      ((∃ e, split_address addr = .error e) ↔
        (pre = [] ∨ suf = [] ∨ pyInt suf = none ∨
         ∃ n, pyInt suf = some n ∧ (n < 0 ∨ 65535 < n))) ∧
      (∀ n : Int, pyInt suf = some n → 0 ≤ n → n ≤ 65535 → pre ≠ [] →
        split_address addr = .ok (String.mk pre, n))) := by
  refine ⟨?_, ?_, ?_⟩
  · intro h
    unfold split_address
    rw [h]
    simp
  · intro h
    exact exists_last_colon_split addr.data (List.mem_of_elem_eq_true h)
  · intro pre suf hsplit hsuf
    have hmem : ':' ∈ addr.data := by rw [hsplit]; simp
    have hc : addr.data.contains ':' = true := List.elem_eq_true_of_mem hmem
    have hrs : rsplitColon addr.data = (pre, suf) := by
      rw [hsplit]; exact rsplitColon_last pre suf hsuf
    have h1 : (rsplitColon addr.data).1 = pre := by rw [hrs]
    have h2 : (rsplitColon addr.data).2 = suf := by rw [hrs]
    have hred : split_address addr =
        (if pre = [] then
          Except.error (PyErr.valueError "Host part must not be empty.")
         else if suf = [] then
          Except.error (PyErr.valueError "Port part must not be empty.")
         else
          match pyInt suf with
          | none => Except.error (PyErr.valueError "Invalid port. Must be an integer.")
          | some port =>
              if 0 ≤ port ∧ port ≤ 65535 then Except.ok (String.mk pre, port)
              else Except.error (PyErr.valueError "Invalid port. Must be an integer.")) := by
      unfold split_address
      rw [hc, h1, h2]
      simp [List.isEmpty_iff]
    constructor
    · constructor
      · rintro ⟨e, he⟩
        rw [hred] at he
        by_cases hp : pre = []
        · exact Or.inl hp
        · rw [if_neg hp] at he
          by_cases hs : suf = []
          · exact Or.inr (Or.inl hs)
          · rw [if_neg hs] at he
            cases hpy : pyInt suf with
            | none => exact Or.inr (Or.inr (Or.inl rfl))
            | some n =>
                rw [hpy] at he
                have he2 : (if 0 ≤ n ∧ n ≤ 65535 then
                    Except.ok (String.mk pre, n)
                  else
                    Except.error
                      (PyErr.valueError "Invalid port. Must be an integer.")) =
                    Except.error e := he
                by_cases hr : 0 ≤ n ∧ n ≤ 65535
                · rw [if_pos hr] at he2
                  exact absurd he2 (by simp)
                · exact Or.inr (Or.inr (Or.inr ⟨n, rfl, by omega⟩))
      · rintro (hp | hs | hn | ⟨n, hn, hr⟩)
        · exact ⟨_, by rw [hred, if_pos hp]⟩
        · by_cases hp : pre = []
          · exact ⟨_, by rw [hred, if_pos hp]⟩
          · exact ⟨_, by rw [hred, if_neg hp, if_pos hs]⟩
        · by_cases hp : pre = []
          · exact ⟨_, by rw [hred, if_pos hp]⟩
          · by_cases hs : suf = []
            · exact ⟨_, by rw [hred, if_neg hp, if_pos hs]⟩
            · refine ⟨PyErr.valueError "Invalid port. Must be an integer.", ?_⟩
              rw [hred, if_neg hp, if_neg hs, hn]
        · by_cases hp : pre = []
          · exact ⟨_, by rw [hred, if_pos hp]⟩
          · by_cases hs : suf = []
            · exact ⟨_, by rw [hred, if_neg hp, if_pos hs]⟩
            · refine ⟨PyErr.valueError "Invalid port. Must be an integer.", ?_⟩
              rw [hred, if_neg hp, if_neg hs, hn]
              show (if 0 ≤ n ∧ n ≤ 65535 then Except.ok (String.mk pre, n)
                else Except.error
                  (PyErr.valueError "Invalid port. Must be an integer.")) =
                Except.error (PyErr.valueError "Invalid port. Must be an integer.")
              rw [if_neg (by omega)]
    · intro n hn h0 h65 hp
      have hs : suf ≠ [] := by
        intro h
        rw [h] at hn
        exact absurd hn (by simp [pyInt, pyStrip, parseDigitPart])
      rw [hred, if_neg hp, if_neg hs, hn]
      show (if 0 ≤ n ∧ n ≤ 65535 then Except.ok (String.mk pre, n)
        else Except.error
          (PyErr.valueError "Invalid port. Must be an integer.")) =
        Except.ok (String.mk pre, n)
      rw [if_pos ⟨h0, h65⟩]

/-- Witness for C10: `split_address` accepts `h:80` as the pair of host `h`
and port 80, and rejects the colon-free address `host`. -/
theorem split_address_correct_witness :
    split_address "h:80" = .ok ("h", 80) ∧
    ∃ e, split_address "host" = .error e := by
  constructor
  · have h := (split_address_correct "h:80").2.2 ['h'] ['8', '0']
      (by decide) (by decide)
    have hok := h.2 80 rfl (by decide) (by decide) (by simp)
    exact hok
  · exact ⟨_, (split_address_correct "host").1 (by decide)⟩

end PyOrion
